import Mathlib

/-!
Verification of the HamsterDrive driver-update pipeline.

Shallow embedding of the Rust sources:
  * `src/types/hardware_types.rs`  — `HardwareId` and its parser
  * `src/hardware/identifier.rs`   — `calculate_match_score`
  * `src/types/driver_types.rs`    — `DriverVersion`, `is_newer_than`, `Ord`
  * `src/driver/matcher/scoring.rs`— `calculate_version_score`
  * `src/driver/fetcher/download_queue.rs` — the download queue state machine
  * `src/driver/matcher/driver_matcher.rs` — the matcher
  * `src/core/controller.rs`, `src/update.rs`, `src/installer/driver_installer.rs`,
    `src/driver/installer/rollback_manager.rs`, `src/batch_update.rs` — the
    install / rollback / batch pipeline, modelled as pure functions from an
    environment of external outcomes to a result together with a trace of the
    externally visible actions.

Machine integers (`u32`, `u64`, `usize`) are modelled as `Nat`; the only
arithmetic on them in the verified code is comparison, addition bounded far
below `2^32`, and the one `u32` subtraction of `calculate_version_score`,
which is modelled as a checked subtraction returning `none` on underflow
(the arithmetic-error branch of the Rust build).
-/

namespace HamsterDrive

/-! ### Association lists

`std::collections::HashMap` is modelled as an association list where
`insertA` replaces the binding of an existing key (`HashMap::insert`) and
`lookupA` finds it (`HashMap::get`).  Key order is irrelevant to every claim
below. -/

def lookupA {α : Type} [DecidableEq α] {β : Type} : List (α × β) → α → Option β
  | [], _ => none
  | (k, v) :: rest, key => if k = key then some v else lookupA rest key

def insertA {α : Type} [DecidableEq α] {β : Type} : List (α × β) → α → β → List (α × β)
  | [], key, val => [(key, val)]
  | (k, v) :: rest, key, val =>
      if k = key then (key, val) :: rest else (k, v) :: insertA rest key val

instance {eTy aTy : Type} [DecidableEq eTy] [DecidableEq aTy] :
    DecidableEq (Except eTy aTy)
  | Except.ok a, Except.ok b =>
      if h : a = b then isTrue (congrArg Except.ok h)
      else isFalse (fun hc => h (Except.ok.inj hc))
  | Except.ok _, Except.error _ => isFalse (fun hc => Except.noConfusion hc)
  | Except.error _, Except.ok _ => isFalse (fun hc => Except.noConfusion hc)
  | Except.error e, Except.error f =>
      if h : e = f then isTrue (congrArg Except.error h)
      else isFalse (fun hc => h (Except.error.inj hc))

/-! ### ASCII case-insensitive string comparison

`str::eq_ignore_ascii_case` from the Rust standard library: equality after
lowercasing ASCII letters, everything else compared verbatim. -/

def asciiLower (c : Char) : Char :=
  if 'A' ≤ c ∧ c ≤ 'Z' then Char.ofNat (c.toNat + 32) else c

def eqIgnoreAsciiCase (a b : String) : Bool :=
  a.data.map asciiLower == b.data.map asciiLower

/-! ### HardwareId — `src/types/hardware_types.rs`

`HardwareId::parse` uppercases the raw string, then for each of the prefixes
`VEN_`, `DEV_`, `SUBSYS_`, `REV_` takes the fixed number of characters
following the first occurrence of the prefix (if the string is long enough).
The original (non-uppercased) string is stored in `full_id`. -/

structure HardwareId where
  full_id : String
  vendor_id : Option String
  device_id : Option String
  subsys_id : Option String
  revision : Option String
deriving DecidableEq, Repr

def patAtHead : List Char → List Char → Bool
  | [], _ => true
  | _ :: _, [] => false
  | p :: ps, c :: cs => p = c && patAtHead ps cs

def findSub (pat : List Char) : List Char → Option Nat
  | [] => if pat.isEmpty then some 0 else none
  | c :: cs =>
      if patAtHead pat (c :: cs) then some 0
      else (findSub pat cs).map (· + 1)

def extract_field (id : String) (pre : String) (length : Nat) : Option String :=
  match findSub pre.data id.data with
  | some pos =>
      let start := pos + pre.data.length
      if start + length ≤ id.data.length then
        some (String.mk ((id.data.drop start).take length))
      else none
  | none => none

def rustToUpper (s : String) : String :=
  String.mk (s.data.map Char.toUpper)

def HardwareId.parse (full_id : String) : HardwareId :=
  let upper_id := rustToUpper full_id
  { full_id := full_id
    vendor_id := extract_field upper_id "VEN_" 4
    device_id := extract_field upper_id "DEV_" 4
    subsys_id := extract_field upper_id "SUBSYS_" 8
    revision := extract_field upper_id "REV_" 2 }

def HardwareId.short_id (h : HardwareId) : Option String :=
  match h.vendor_id, h.device_id with
  | some ven, some dev => some ("VEN_" ++ ven ++ "&DEV_" ++ dev)
  | _, _ => none

/-! ### calculate_match_score — `src/hardware/identifier.rs` -/

def fieldMatch (a b : Option String) : Bool :=
  match a, b with
  | some x, some y => eqIgnoreAsciiCase x y
  | _, _ => false

def calculate_match_score (device_id driver_id : HardwareId) : Nat :=
  if eqIgnoreAsciiCase device_id.full_id driver_id.full_id then 1000
  else
    (if fieldMatch device_id.vendor_id driver_id.vendor_id then 100 else 0)
    + (if fieldMatch device_id.device_id driver_id.device_id then 200 else 0)
    + (if fieldMatch device_id.subsys_id driver_id.subsys_id then 50 else 0)
    + (if fieldMatch device_id.revision driver_id.revision then 10 else 0)

/-! ### DriverVersion — `src/types/driver_types.rs` -/

structure DriverVersion where
  version_string : String
  major : Nat
  minor : Nat
  patch : Nat
  build : Nat
deriving DecidableEq, Repr

def DriverVersion.is_newer_than (self other : DriverVersion) : Bool :=
  if self.major ≠ other.major then decide (self.major > other.major)
  else if self.minor ≠ other.minor then decide (self.minor > other.minor)
  else if self.patch ≠ other.patch then decide (self.patch > other.patch)
  else decide (self.build > other.build)

def DriverVersion.cmp (self other : DriverVersion) : Ordering :=
  match compare self.major other.major with
  | Ordering.eq =>
      match compare self.minor other.minor with
      | Ordering.eq =>
          match compare self.patch other.patch with
          | Ordering.eq => compare self.build other.build
          | ord => ord
      | ord => ord
  | ord => ord

/-- Strict lexicographic order on the `(major, minor, patch, build)` tuple,
written from the spec's words ("lexicographic 4-tuple compare") to compare
the two source implementations against. -/
def specLexGt (a b : DriverVersion) : Prop :=
  b.major < a.major ∨
    (a.major = b.major ∧ (b.minor < a.minor ∨
      (a.minor = b.minor ∧ (b.patch < a.patch ∨
        (a.patch = b.patch ∧ b.build < a.build)))))

/-! ### calculate_version_score — `src/driver/matcher/scoring.rs`

The Rust body subtracts `u32` components directly; `u32sub` returns `none`
exactly when that subtraction underflows (the arithmetic-error branch). -/

def u32sub (a b : Nat) : Option Nat :=
  if b ≤ a then some (a - b) else none

def calculate_version_score (current available : DriverVersion) : Option Nat :=
  if available.is_newer_than current then
    match u32sub available.major current.major,
          u32sub available.minor current.minor,
          u32sub available.patch current.patch with
    | some dmaj, some dmin, some dpat => some (min (dmaj * 100 + dmin * 10 + dpat) 100)
    | _, _, _ => none
  else
    some 0

/-! ### Driver types — `src/types/driver_types.rs` -/

inductive DriverStatus where
  | UpToDate | Outdated | NotInstalled | Downloading | Installing
  | InstallFailed | NeedsReboot | Unknown
deriving DecidableEq, Repr

inductive DriverType where
  | Graphics | Network | Audio | Chipset | USB | Storage | Input
  | Firmware | Other | Unknown
deriving DecidableEq, Repr

structure DriverInfo where
  name : String
  device_name : String
  hardware_id : String
  current_version : DriverVersion
  latest_version : Option DriverVersion
  download_url : Option String
  file_size : Option Nat
  release_date : Option String
  release_notes : Option String
  status : DriverStatus
  provider : Option String
  driver_type : DriverType
  is_critical : Bool
  needs_reboot : Bool
  sha256 : Option String
deriving DecidableEq, Repr

/-- `DriverInfo::new` from `src/types/driver_types.rs`. -/
def DriverInfo.new (name hardware_id : String) : DriverInfo :=
  { name := name
    device_name := name
    hardware_id := hardware_id
    current_version :=
      { version_string := "0.0.0.0", major := 0, minor := 0, patch := 0, build := 0 }
    latest_version := none
    download_url := none
    file_size := none
    release_date := none
    release_notes := none
    status := DriverStatus.Unknown
    provider := none
    driver_type := DriverType.Unknown
    is_critical := false
    needs_reboot := false
    sha256 := none }

/-- The `Display` implementation of `DriverVersion` prints `version_string`. -/
def DriverVersion.toDisplay (v : DriverVersion) : String :=
  v.version_string

/-! ### Error type — `src/utils/error.rs` -/

inductive HamsterError where
  | ScanError (msg : String)
  | BackupError (msg : String)
  | RestoreError (msg : String)
  | UpdateError (msg : String)
  | InstallError (msg : String)
  | SignatureError (msg : String)
  | NetworkError (msg : String)
  | IoError (msg : String)
  | DatabaseError (msg : String)
  | ConfigError (msg : String)
  | ParseError (msg : String)
  | PermissionError (msg : String)
  | InitError (msg : String)
  | DownloadError (msg : String)
  | ValidationError (msg : String)
  | TimeoutError (msg : String)
  | Unknown (msg : String)
deriving DecidableEq, Repr

/-! ### DownloadQueue — `src/driver/fetcher/download_queue.rs`

`generate_task_id` feeds `name`, `current_version.to_string()` (which is the
`version_string` field, per the `Display` impl) and `hardware_id` into a
`DefaultHasher`.  The hash is a deterministic function of that triple, so the
task id is modelled as the triple itself.  `progress: f64` is only ever
stored and read back, never computed with, so it is modelled as `Rat`;
`created_at: SystemTime` is modelled as a `Nat` timestamp supplied by the
caller (`SystemTime::now()` at the time of the call). -/

inductive DownloadStatus where
  | Queued | Downloading | Paused | Completed | Failed | Cancelled
deriving DecidableEq, Repr

structure TaskId where
  name : String
  version_string : String
  hardware_id : String
deriving DecidableEq, Repr

def generate_task_id (driver_info : DriverInfo) : TaskId :=
  { name := driver_info.name
    version_string := driver_info.current_version.toDisplay
    hardware_id := driver_info.hardware_id }

structure DownloadTask where
  id : TaskId
  driver_info : DriverInfo
  download_url : String
  file_path : String
  status : DownloadStatus
  progress : Rat
  created_at : Nat
deriving DecidableEq, Repr

structure DownloadQueue where
  tasks : List (TaskId × DownloadTask)
  max_concurrent_downloads : Nat
  active_downloads : Nat
deriving DecidableEq, Repr

def DownloadQueue.new (max_concurrent_downloads : Nat) : DownloadQueue :=
  { tasks := []
    max_concurrent_downloads := max_concurrent_downloads
    active_downloads := 0 }

def DownloadQueue.add_task (q : DownloadQueue) (driver_info : DriverInfo)
    (download_url file_path : String) (now : Nat) : TaskId × DownloadQueue :=
  let task_id := generate_task_id driver_info
  let task : DownloadTask :=
    { id := task_id
      driver_info := driver_info
      download_url := download_url
      file_path := file_path
      status := DownloadStatus.Queued
      progress := 0
      created_at := now }
  (task_id, { q with tasks := insertA q.tasks task_id task })

def DownloadQueue.start_task (q : DownloadQueue) (task_id : TaskId) :
    Except HamsterError DownloadQueue :=
  match lookupA q.tasks task_id with
  | some task =>
      if task.status = DownloadStatus.Queued then
        if q.active_downloads < q.max_concurrent_downloads then
          Except.ok { q with
            tasks := insertA q.tasks task_id { task with status := DownloadStatus.Downloading }
            active_downloads := q.active_downloads + 1 }
        else
          Except.error (HamsterError.DownloadError "达到最大并发下载数")
      else
        Except.error (HamsterError.DownloadError "任务状态不允许开始下载")
  | none => Except.error (HamsterError.DownloadError "任务不存在")

def DownloadQueue.update_progress (q : DownloadQueue) (task_id : TaskId) (progress : Rat) :
    Except HamsterError DownloadQueue :=
  match lookupA q.tasks task_id with
  | some task =>
      Except.ok { q with tasks := insertA q.tasks task_id { task with progress := progress } }
  | none => Except.error (HamsterError.DownloadError "任务不存在")

def DownloadQueue.complete_task (q : DownloadQueue) (task_id : TaskId) (success : Bool) :
    Except HamsterError DownloadQueue :=
  match lookupA q.tasks task_id with
  | some task =>
      let status := if success then DownloadStatus.Completed else DownloadStatus.Failed
      Except.ok { q with
        tasks := insertA q.tasks task_id { task with status := status }
        active_downloads :=
          if 0 < q.active_downloads then q.active_downloads - 1 else q.active_downloads }
  | none => Except.error (HamsterError.DownloadError "任务不存在")

def DownloadQueue.cancel_task (q : DownloadQueue) (task_id : TaskId) :
    Except HamsterError DownloadQueue :=
  match lookupA q.tasks task_id with
  | some task =>
      Except.ok { q with
        tasks := insertA q.tasks task_id { task with status := DownloadStatus.Cancelled } }
  | none => Except.error (HamsterError.DownloadError "任务不存在")

/-- Number of tasks currently in `Downloading` state
(`get_tasks_by_status(Downloading).len()`). -/
def downloadingCount (q : DownloadQueue) : Nat :=
  q.tasks.countP (fun p => decide (p.2.status = DownloadStatus.Downloading))

/-! Operation language over the queue: an arbitrary interleaving of the
public methods.  A call whose Rust counterpart returns `Err` leaves the
queue unchanged (the source mutates nothing on those paths). -/

inductive QOp where
  | add (driver_info : DriverInfo) (download_url file_path : String) (now : Nat)
  | start (task_id : TaskId)
  | complete (task_id : TaskId) (success : Bool)
  | cancel (task_id : TaskId)
  | progress (task_id : TaskId) (value : Rat)

def orKeep (q : DownloadQueue) : Except HamsterError DownloadQueue → DownloadQueue
  | Except.ok q2 => q2
  | Except.error _ => q

def DownloadQueue.apply (q : DownloadQueue) : QOp → DownloadQueue
  | QOp.add d u p n => (q.add_task d u p n).2
  | QOp.start id => orKeep q (q.start_task id)
  | QOp.complete id b => orKeep q (q.complete_task id b)
  | QOp.cancel id => orKeep q (q.cancel_task id)
  | QOp.progress id v => orKeep q (q.update_progress id v)

def DownloadQueue.run (q : DownloadQueue) : List QOp → DownloadQueue
  | [] => q
  | op :: rest => (q.apply op).run rest

/-- States reachable from a fresh queue when `complete_task` is only ever
invoked on tasks that are actually `Downloading` (the discipline the queue's
own download loop follows); `add`, `start`, `cancel` and `update_progress`
remain unrestricted. -/
inductive ReachableQ : DownloadQueue → Prop where
  | init (max : Nat) : ReachableQ (DownloadQueue.new max)
  | add {q : DownloadQueue} (d : DriverInfo) (u p : String) (n : Nat) :
      ReachableQ q → ReachableQ (q.add_task d u p n).2
  | start {q : DownloadQueue} (id : TaskId) :
      ReachableQ q → ReachableQ (orKeep q (q.start_task id))
  | complete {q : DownloadQueue} {id : TaskId} {t : DownloadTask} (success : Bool) :
      ReachableQ q → lookupA q.tasks id = some t →
      t.status = DownloadStatus.Downloading →
      ReachableQ (orKeep q (q.complete_task id success))
  | cancel {q : DownloadQueue} (id : TaskId) :
      ReachableQ q → ReachableQ (orKeep q (q.cancel_task id))
  | progress {q : DownloadQueue} (id : TaskId) (v : Rat) :
      ReachableQ q → ReachableQ (orKeep q (q.update_progress id v))

/-- The inductive invariant: the `active_downloads` counter dominates the
number of `Downloading` tasks and is itself bounded by the cap. -/
def QInv (q : DownloadQueue) : Prop :=
  downloadingCount q ≤ q.active_downloads ∧
    q.active_downloads ≤ q.max_concurrent_downloads

/-! ### Device types — `src/types/hardware_types.rs` -/

inductive DeviceClass where
  | Display | Network | Sound | USB | Storage | System | Processor
  | Input | Printer | Bluetooth | Camera | Biometric
  | Other (guid : String)
deriving DecidableEq, Repr

inductive DeviceStatus where
  | Working | Disabled | Problem | Unknown
deriving DecidableEq, Repr

structure DeviceInfo where
  instance_id : String
  name : String
  description : String
  device_class : DeviceClass
  hardware_ids : List HardwareId
  compatible_ids : List String
  vendor_name : Option String
  driver_version : Option String
  driver_date : Option String
  driver_provider : Option String
  inf_name : Option String
  status : DeviceStatus
  problem_code : Option Nat
  has_problem : Bool
deriving DecidableEq, Repr

def DeviceInfo.primary_hardware_id (d : DeviceInfo) : Option HardwareId :=
  d.hardware_ids.head?

/-! ### DriverPackage — `src/types/driver_types.rs`

`release_date: DateTime<Utc>` is only ever rendered with `%Y-%m-%d` by the
code under verification, so it is modelled as that rendered string. -/

structure DriverPackage where
  id : String
  name : String
  version : DriverVersion
  vendor : String
  download_url : String
  file_size : Nat
  sha256 : String
  supported_hardware_ids : List String
  supported_os : List String
  release_date : String
  release_notes : Option String
  needs_reboot : Bool
  silent_install_args : Option String
deriving DecidableEq, Repr

/-- `DriverVersion::default()`. -/
def DriverVersion.defaultV : DriverVersion :=
  { version_string := "0.0.0.0", major := 0, minor := 0, patch := 0, build := 0 }

/-! ### DriverMatcher — `src/driver/matcher/driver_matcher.rs` -/

structure DriverMatcher where
  local_cache : List (String × List DriverPackage)
  match_threshold : Nat
deriving DecidableEq, Repr

/-- `DriverMatcher::new`: empty cache, threshold 100. -/
def DriverMatcher.mkNew : DriverMatcher :=
  { local_cache := [], match_threshold := 100 }

def DriverMatcher.package_to_driver_info (_m : DriverMatcher) (package : DriverPackage) :
    DriverInfo :=
  { name := package.name
    device_name := package.name
    hardware_id := (package.supported_hardware_ids.head?).getD ""
    current_version := DriverVersion.defaultV
    latest_version := some package.version
    download_url := some package.download_url
    file_size := some package.file_size
    release_date := some package.release_date
    release_notes := package.release_notes
    status := DriverStatus.Outdated
    provider := some package.vendor
    driver_type := DriverType.Other
    is_critical := false
    needs_reboot := package.needs_reboot
    sha256 := some package.sha256 }

def DriverMatcher.find_in_local_cache (m : DriverMatcher) (hardware_id : HardwareId) :
    Option DriverInfo :=
  match hardware_id.short_id with
  | some sid =>
      match lookupA m.local_cache sid with
      | some packages => packages.head?.map m.package_to_driver_info
      | none => none
  | none => none

/-- `DriverMatcher::match_driver`.  The cloud-service fallback in the source
is unimplemented and returns `Ok(None)`. -/
def DriverMatcher.match_driver (m : DriverMatcher) (device : DeviceInfo) :
    Except HamsterError (Option DriverInfo) :=
  match device.primary_hardware_id with
  | none => Except.error (HamsterError.ScanError "设备没有硬件ID")
  | some hardware_id =>
      match m.find_in_local_cache hardware_id with
      | some driver => Except.ok (some driver)
      | none => Except.ok none

/-! ### Pipeline events

The externally visible actions of the install pipeline, used as trace
elements by the models below. -/

inductive PEv where
  | restorePointCreated
  | restorePointFailed
  | downloadStep
  | installStep
  | installerInvoked
  | rollbackReinstall
deriving DecidableEq, Repr

/-- A trace is safely guarded when no install action
(`installStep`/`installerInvoked`) occurs before a successfully created
restore point. -/
def installGuarded : List PEv → Bool
  | [] => true
  | PEv.restorePointCreated :: _ => true
  | PEv.installStep :: _ => false
  | PEv.installerInvoked :: _ => false
  | _ :: rest => installGuarded rest

/-! ### DriverUpdaterCore::install_driver_update — `src/core/controller.rs`

Sequencing: `create_restore_point(..)?` then `download_driver(..)?` then
`install_driver_from_file(..)?`.  The restore-point attempt runs
`Checkpoint-Computer` via powershell — its exit status is the environment
bit `restore_point_ok`; `download_driver` can fail only in
`get_download_dir()` (bit `download_dir_ok`); the controller's
`install_driver_from_file` step is a placeholder that returns `Ok(())`. -/

structure ControllerEnv where
  restore_point_ok : Bool
  download_dir_ok : Bool
deriving DecidableEq, Repr

def install_driver_update (env : ControllerEnv) (_driver : DriverInfo) :
    Except HamsterError Unit × List PEv :=
  if env.restore_point_ok then
    if env.download_dir_ok then
      (Except.ok (), [PEv.restorePointCreated, PEv.downloadStep, PEv.installStep])
    else
      (Except.error (HamsterError.IoError "获取下载目录失败"), [PEv.restorePointCreated])
  else
    (Except.error (HamsterError.Unknown "创建还原点失败"), [PEv.restorePointFailed])

/-! ### src/update.rs — download_and_install_driver and friends -/

inductive ScanDriverStatus where
  | Outdated | UpToDate | NotInstalled
deriving DecidableEq, Repr

/-- `DriverInfo` from `src/scan.rs` (the type `src/update.rs` consumes).
Note it carries no checksum field at all. -/
structure ScanDriverInfo where
  name : String
  current_version : String
  latest_version : String
  hardware_id : String
  download_url : String
  size : String
  release_date : String
  status : ScanDriverStatus
deriving DecidableEq, Repr

structure UDownloadResult where
  driver_name : String
  file_path : String
  file_size : Nat
  success : Bool
  error_message : Option String
deriving DecidableEq, Repr

structure UInstallResult where
  driver_name : String
  success : Bool
  error_message : Option String
  installed_version : Option String
deriving DecidableEq, Repr

/-- Outcome of the HTTP transfer in `download_driver_with_progress`. -/
inductive HttpOutcome where
  | clientError (msg : String)
  | statusFail (code : String)
  | chunkError (msg : String)
  | body (chunks : List (List Nat))
deriving DecidableEq, Repr

structure UpdateEnv where
  http : HttpOutcome
  write_ok : Bool
deriving DecidableEq, Repr

def replaceChar (s : String) (c1 c2 : Char) : String :=
  String.mk (s.data.map (fun c => if c = c1 then c2 else c))

/-- The temp file name built by `download_driver_with_progress`; it always
ends in `.exe`. -/
def tempFileName (driver_name version : String) : String :=
  replaceChar (replaceChar (replaceChar driver_name ' ' '_') '/' '_') '\\' '_'
    ++ "_" ++ replaceChar version '.' '_' ++ ".exe"

/-- `download_driver_with_progress` from `src/update.rs`: streams the body
into memory, writes it to the temp file and returns `success: true`.  No
hash of any kind is computed anywhere in this function. -/
def download_driver_with_progress (_url driver_name version : String) (env : UpdateEnv) :
    Except HamsterError UDownloadResult × List PEv :=
  match env.http with
  | HttpOutcome.clientError msg => (Except.error (HamsterError.NetworkError msg), [])
  | HttpOutcome.statusFail code =>
      (Except.ok
        { driver_name := driver_name, file_path := "", file_size := 0,
          success := false, error_message := some ("下载失败: HTTP " ++ code) }, [])
  | HttpOutcome.chunkError msg => (Except.error (HamsterError.NetworkError msg), [])
  | HttpOutcome.body chunks =>
      if env.write_ok then
        (Except.ok
          { driver_name := driver_name
            file_path := tempFileName driver_name version
            file_size := chunks.flatten.length
            success := true
            error_message := none }, [PEv.downloadStep])
      else
        (Except.error (HamsterError.UpdateError "保存文件失败"), [])

def rustToLower (s : String) : String :=
  String.mk (s.data.map Char.toLower)

def extAfterLastDot : List Char → Option (List Char)
  | [] => none
  | c :: cs =>
      match extAfterLastDot cs with
      | some e => some e
      | none => if c = '.' then some cs else none

/-- `Path::extension()` lowered to the common case handled by the code:
the segment after the last dot, or empty when there is none. -/
def fileExtension (path : String) : String :=
  match extAfterLastDot path.data with
  | some e => String.mk e
  | none => ""

/-- Environment for `install_driver_from_file` (src/update.rs): existence of
the file, the outcome of spawning the installer process and its exit
status, and — for archives — the extraction outcome and INF discovery. -/
structure UInstallEnv where
  file_exists : Bool
  spawn_ok : Bool
  exit_ok : Bool
  extract_spawn_ok : Bool
  extract_exit_ok : Bool
  inf_found : Bool
  inf_spawn_ok : Bool
  inf_exit_ok : Bool
  inf_stdout_added : Bool
deriving DecidableEq, Repr

def install_exe_driver (_file_path driver_name : String) (env : UInstallEnv) :
    Except HamsterError UInstallResult × List PEv :=
  if env.spawn_ok then
    if env.exit_ok then
      (Except.ok
        { driver_name := driver_name, success := true, error_message := none,
          installed_version := some "已安装" }, [PEv.installerInvoked])
    else
      (Except.ok
        { driver_name := driver_name, success := false,
          error_message := some "安装失败", installed_version := none },
        [PEv.installerInvoked])
  else
    (Except.ok
      { driver_name := driver_name, success := false,
        error_message := some "执行安装命令失败", installed_version := none }, [])

def install_inf_driver (_file_path driver_name : String) (env : UInstallEnv) :
    Except HamsterError UInstallResult × List PEv :=
  if env.inf_spawn_ok then
    if env.inf_exit_ok || env.inf_stdout_added then
      (Except.ok
        { driver_name := driver_name, success := true, error_message := none,
          installed_version := some "已安装" }, [PEv.installerInvoked])
    else
      (Except.ok
        { driver_name := driver_name, success := false,
          error_message := some "安装失败", installed_version := none },
        [PEv.installerInvoked])
  else
    (Except.ok
      { driver_name := driver_name, success := false,
        error_message := some "执行pnputil命令失败", installed_version := none }, [])

def install_archive_driver (_file_path driver_name : String) (env : UInstallEnv) :
    Except HamsterError UInstallResult × List PEv :=
  if env.extract_spawn_ok then
    if env.extract_exit_ok then
      if env.inf_found then install_inf_driver "extracted.inf" driver_name env
      else
        (Except.ok
          { driver_name := driver_name, success := false,
            error_message := some "未找到INF文件", installed_version := none }, [])
    else
      (Except.ok
        { driver_name := driver_name, success := false,
          error_message := some "解压失败", installed_version := none }, [])
  else
    (Except.ok
      { driver_name := driver_name, success := false,
        error_message := some "执行解压命令失败", installed_version := none }, [])

def install_driver_from_file (file_path driver_name : String) (env : UInstallEnv) :
    Except HamsterError UInstallResult × List PEv :=
  if ¬ env.file_exists then
    (Except.ok
      { driver_name := driver_name, success := false,
        error_message := some "驱动文件不存在", installed_version := none }, [])
  else
    let ext := rustToLower (fileExtension file_path)
    if ext = "exe" then install_exe_driver file_path driver_name env
    else if ext = "zip" ∨ ext = "7z" ∨ ext = "rar" then
      install_archive_driver file_path driver_name env
    else if ext = "inf" then install_inf_driver file_path driver_name env
    else
      (Except.ok
        { driver_name := driver_name, success := false,
          error_message := some ("不支持的驱动文件格式: " ++ ext),
          installed_version := none }, [])

/-- `download_and_install_driver` from `src/update.rs`: empty URL short
circuits; transport errors propagate as `Err`; an unsuccessful download is
reported without installing; a successful download is handed straight to
`install_driver_from_file`.  No restore point and no checksum comparison
appear anywhere on this path. -/
def download_and_install_driver (driver : ScanDriverInfo)
    (env : UpdateEnv) (ienv : UInstallEnv) :
    Except HamsterError UInstallResult × List PEv :=
  if driver.download_url.isEmpty then
    (Except.ok
      { driver_name := driver.name, success := false,
        error_message := some "驱动没有下载链接", installed_version := none }, [])
  else
    match download_driver_with_progress driver.download_url driver.name
        driver.latest_version env with
    | (Except.error e, tr) => (Except.error e, tr)
    | (Except.ok dres, tr) =>
        if dres.success then
          match install_driver_from_file dres.file_path driver.name ienv with
          | (r, tr2) => (r, tr ++ tr2)
        else
          (Except.ok
            { driver_name := driver.name, success := false,
              error_message := dres.error_message, installed_version := none }, tr)

/-- One batch entry: a driver together with the external outcomes its run
will encounter. -/
def BatchEntry : Type := ScanDriverInfo × UpdateEnv × UInstallEnv

def runEntry (e : BatchEntry) : Except HamsterError UInstallResult :=
  (download_and_install_driver e.1 e.2.1 e.2.2).1

/-- `batch_update_drivers` from `src/update.rs`: the `?` on
`download_and_install_driver` propagates a transport `Err` out of the loop,
aborting the remaining drivers. -/
def batch_update_drivers : List BatchEntry → Except HamsterError (List UInstallResult)
  | [] => Except.ok []
  | e :: rest =>
      match runEntry e with
      | Except.error err => Except.error err
      | Except.ok r =>
          match batch_update_drivers rest with
          | Except.error err => Except.error err
          | Except.ok rs => Except.ok (r :: rs)

/-! ### update_all_drivers — `src/batch_update.rs`

`scan_outdated_drivers()` is the external scanner (out of scope per the
spec); its output is the `drivers` parameter. -/

structure BUpdateResult where
  total : Nat
  success : Nat
  failed : Nat
  messages : List String
deriving DecidableEq, Repr

def update_loop : List BatchEntry → Nat × Nat × List String
  | [] => (0, 0, [])
  | e :: rest =>
      let head :=
        match runEntry e with
        | Except.ok ir =>
            if ir.success then
              (1, 0, ["✓ 成功更新: " ++ e.1.name ++ " (版本: " ++ e.1.latest_version ++ ")"])
            else
              (0, 1, ["✗ 更新失败 " ++ e.1.name])
        | Except.error _ => (0, 1, ["✗ 更新失败 " ++ e.1.name])
      let tail := update_loop rest
      (head.1 + tail.1, head.2.1 + tail.2.1, head.2.2 ++ tail.2.2)

def update_all_drivers (drivers : List BatchEntry) : BUpdateResult :=
  if drivers.isEmpty then
    { total := 0, success := 0, failed := 0,
      messages := ["没有检测到需要更新的驱动"] }
  else
    let counts := update_loop drivers
    { total := drivers.length
      success := counts.1
      failed := counts.2.1
      messages :=
        ("开始更新 " ++ toString drivers.length ++ " 个驱动程序...")
          :: counts.2.2
          ++ ["更新完成: 成功 " ++ toString counts.1 ++ ", 失败 "
              ++ toString counts.2.1 ++ ", 总计 " ++ toString drivers.length] }

/-! ### DriverInstaller — `src/installer/driver_installer.rs` -/

structure InstallerDriverInfo where
  file_path : String
  file_name : String
  hardware_id : String
  manufacturer : String
  driver_version : String
deriving DecidableEq, Repr

structure InstallationResult where
  success : Bool
  message : String
  driver_version : String
  installed_at : String
deriving DecidableEq, Repr

/-- External outcomes for one `DriverInstaller::install_driver` call:
admin-privilege check, spawn/exit of the primary installer process, and
spawn/exit of the second silent-flag attempt (`exe` only). -/
structure InstallerEnv where
  has_admin : Bool
  spawn_ok : Bool
  exit_ok : Bool
  retry_spawn_ok : Bool
  retry_exit_ok : Bool
  now : String
deriving DecidableEq, Repr

/-- The inner dispatch of `install_driver`: `anyhow::Error` is modelled as
its message string.  A spawn failure (`Command::output()` returning `Err`)
propagates via `?` without the installer ever running. -/
def install_driver_dispatch (info : InstallerDriverInfo) (env : InstallerEnv) :
    Except String Unit × List PEv :=
  let ext := rustToLower (fileExtension info.file_path)
  if ext = "inf" then
    if info.file_path.isEmpty ∨ info.file_path.length > 32767 then
      (Except.error ("驱动文件路径无效: " ++ info.file_path), [])
    else if ¬ env.spawn_ok then (Except.error "执行命令失败", [])
    else if env.exit_ok then (Except.ok (), [PEv.installerInvoked])
    else (Except.error "pnputil安装失败", [PEv.installerInvoked])
  else if ext = "exe" then
    if info.file_path.isEmpty ∨ info.file_path.length > 32767 then
      (Except.error ("驱动文件路径无效: " ++ info.file_path), [])
    else if ¬ env.spawn_ok then (Except.error "执行命令失败", [])
    else if env.exit_ok then (Except.ok (), [PEv.installerInvoked])
    else if ¬ env.retry_spawn_ok then (Except.error "执行命令失败", [PEv.installerInvoked])
    else if env.retry_exit_ok then
      (Except.ok (), [PEv.installerInvoked, PEv.installerInvoked])
    else
      (Except.error "EXE驱动安装失败", [PEv.installerInvoked, PEv.installerInvoked])
  else if ext = "msi" then
    if info.file_path.isEmpty ∨ info.file_path.length > 32767 then
      (Except.error ("驱动文件路径无效: " ++ info.file_path), [])
    else if ¬ env.spawn_ok then (Except.error "执行命令失败", [])
    else if env.exit_ok then (Except.ok (), [PEv.installerInvoked])
    else (Except.error "MSI驱动安装失败", [PEv.installerInvoked])
  else
    (Except.error ("不支持的驱动文件格式: " ++ ext), [])

/-- `DriverInstaller::install_driver`: errs only on the admin check;
every inner error is converted to an `InstallationResult` with
`success: false`.  There is no post-install verification step and no
rollback invocation anywhere in the function. -/
def DriverInstaller.install_driver (info : InstallerDriverInfo) (env : InstallerEnv) :
    Except String InstallationResult × List PEv :=
  if ¬ env.has_admin then
    (Except.error "需要管理员权限来安装驱动程序", [])
  else
    match install_driver_dispatch info env with
    | (Except.ok _, tr) =>
        (Except.ok
          { success := true, message := "驱动程序安装成功: " ++ info.file_name,
            driver_version := info.driver_version, installed_at := env.now }, tr)
    | (Except.error e, tr) =>
        (Except.ok
          { success := false, message := "驱动程序安装失败: " ++ e,
            driver_version := info.driver_version, installed_at := env.now }, tr)

/-! ### RollbackManager — `src/driver/installer/rollback_manager.rs` -/

structure RollbackPoint where
  id : String
  description : String
  backup_path : String
  creation_time : String
  affected_drivers : List String
deriving DecidableEq, Repr

/-- `RollbackManager::perform_rollback`: the body prints two messages and
returns `Ok(())`; it reinstalls nothing, so its action trace is empty. -/
def perform_rollback (_rollback_point : RollbackPoint) :
    Except HamsterError Unit × List PEv :=
  (Except.ok (), [])

/-! ### Concrete instances used to evaluate the models -/

/-- `is_err` on a batch entry: does its run return `Err` (the case the `?`
in `batch_update_drivers` propagates)? -/
def runEntryIsErr (e : BatchEntry) : Bool :=
  match runEntry e with
  | Except.error _ => true
  | Except.ok _ => false

def sampleScanDriver : ScanDriverInfo :=
  { name := "NVIDIA Graphics Driver"
    current_version := "531.00"
    latest_version := "531.18"
    hardware_id := "PCI\\VEN_10DE&DEV_1C82"
    download_url := "https://example.com/driver.exe"
    size := "1 MB"
    release_date := "2023-03-01"
    status := ScanDriverStatus.Outdated }

def sampleScanDriver2 : ScanDriverInfo :=
  { name := "Realtek Audio Driver"
    current_version := "6.0.1"
    latest_version := "6.0.2"
    hardware_id := "HDAUDIO\\FUNC_01&VEN_10EC"
    download_url := "https://example.com/audio.exe"
    size := "2 MB"
    release_date := "2023-02-01"
    status := ScanDriverStatus.Outdated }

/-- A transfer that completes with body bytes `"hello"`. -/
def httpOkEnv : UpdateEnv :=
  { http := HttpOutcome.body [[104, 101, 108, 108, 111]], write_ok := true }

/-- An install environment where the file exists and the first installer
invocation succeeds. -/
def installOkEnv : UInstallEnv :=
  { file_exists := true, spawn_ok := true, exit_ok := true
    extract_spawn_ok := true, extract_exit_ok := true, inf_found := true
    inf_spawn_ok := true, inf_exit_ok := true, inf_stdout_added := false }

def c4ops : List QOp :=
  [QOp.add (DriverInfo.new "a" "h") "u" "p" 0,
   QOp.add (DriverInfo.new "b" "h") "u" "p" 1,
   QOp.add (DriverInfo.new "c" "h") "u" "p" 2,
   QOp.start ⟨"a", "0.0.0.0", "h"⟩,
   QOp.complete ⟨"b", "0.0.0.0", "h"⟩ true,
   QOp.start ⟨"c", "0.0.0.0", "h"⟩]

def c5driver : DriverInfo := DriverInfo.new "NVIDIA Graphics Driver" "PCI\\VEN_10DE&DEV_1C82"

def c5id : TaskId := generate_task_id c5driver

def c5q1 : DownloadQueue := ((DownloadQueue.new 4).add_task c5driver "u1" "p1" 0).2

def c5q2 : DownloadQueue := orKeep c5q1 (c5q1.start_task c5id)

def c5q3 : DownloadQueue := (c5q2.add_task c5driver "u2" "p2" 5).2

/-- A cached candidate none of whose supported hardware ids is related to
the sample device (hardware-id match score 0). -/
def c7pkgLow : DriverPackage :=
  { id := "p1", name := "Unrelated USB Driver"
    version := { version_string := "1.0.0.0", major := 1, minor := 0, patch := 0, build := 0 }
    vendor := "X", download_url := "u1", file_size := 1, sha256 := "s1"
    supported_hardware_ids := ["USB\\VID_0000&PID_0000"], supported_os := []
    release_date := "2020-01-01", release_notes := none, needs_reboot := false
    silent_install_args := none }

/-- A cached candidate whose supported hardware id is the device's exact id
(score 1000). -/
def c7pkgHigh : DriverPackage :=
  { id := "p2", name := "NVIDIA Graphics Driver"
    version := { version_string := "2.0.0.0", major := 2, minor := 0, patch := 0, build := 0 }
    vendor := "NVIDIA", download_url := "u2", file_size := 2, sha256 := "s2"
    supported_hardware_ids := ["PCI\\VEN_10DE&DEV_1C82"], supported_os := []
    release_date := "2023-03-01", release_notes := none, needs_reboot := false
    silent_install_args := none }

def c7cache : List (String × List DriverPackage) :=
  [("VEN_10DE&DEV_1C82", [c7pkgLow, c7pkgHigh])]

def c7matcher : DriverMatcher :=
  { local_cache := c7cache, match_threshold := 100 }

def c7device : DeviceInfo :=
  { instance_id := "PCI\\VEN_10DE&DEV_1C82\\0"
    name := "GPU", description := "", device_class := DeviceClass.Display
    hardware_ids := [HardwareId.parse "PCI\\VEN_10DE&DEV_1C82"]
    compatible_ids := [], vendor_name := none, driver_version := none
    driver_date := none, driver_provider := none, inf_name := none
    status := DeviceStatus.Working, problem_code := none, has_problem := false }

def c3info : InstallerDriverInfo :=
  { file_path := "C:/drivers/nvidia_531_18.exe"
    file_name := "nvidia_531_18.exe"
    hardware_id := "PCI\\VEN_10DE&DEV_1C82"
    manufacturer := "NVIDIA"
    driver_version := "531.18" }

/-- Admin present; both silent-install attempts spawn but exit non-success:
the "installer exit code non-success" case of the claim. -/
def c3env : InstallerEnv :=
  { has_admin := true, spawn_ok := true, exit_ok := false
    retry_spawn_ok := true, retry_exit_ok := false, now := "2023-03-01T00:00:00Z" }

def c3rollback : RollbackPoint :=
  { id := "rb_1", description := "backup before install"
    backup_path := "C:/backup", creation_time := "2023-03-01T00:00:00Z"
    affected_drivers := ["PCI\\VEN_10DE&DEV_1C82"] }

/-- A batch entry whose transfer fails at the transport level (`Err`). -/
def c8bad : BatchEntry :=
  (sampleScanDriver,
   { http := HttpOutcome.clientError "下载失败: connection reset", write_ok := true },
   installOkEnv)

/-- A batch entry whose run succeeds end to end. -/
def c8good : BatchEntry := (sampleScanDriver2, httpOkEnv, installOkEnv)

/-! ## Lemmas about the association-list operations -/

theorem lookupA_insertA_self {α : Type} [DecidableEq α] {β : Type}
    (l : List (α × β)) (key : α) (val : β) :
    lookupA (insertA l key val) key = some val := by
  induction l with
  | nil => simp [insertA, lookupA]
  | cons hd tl ih =>
      by_cases h : hd.1 = key
      · simp [insertA, lookupA, h]
      · simp [insertA, lookupA, h, ih]

theorem length_insertA_found {α : Type} [DecidableEq α] {β : Type}
    (l : List (α × β)) (key : α) (val : β) (v : β) (h : lookupA l key = some v) :
    (insertA l key val).length = l.length := by
  induction l with
  | nil => simp [lookupA] at h
  | cons hd tl ih =>
      by_cases hk : hd.1 = key
      · simp [insertA, hk]
      · simp [lookupA, hk] at h
        simp [insertA, hk, ih h]

theorem countP_insertA_found {α : Type} [DecidableEq α] {β : Type}
    (p : α × β → Bool) (l : List (α × β)) (key : α) (val : β) (v : β)
    (h : lookupA l key = some v) :
    (insertA l key val).countP p + (if p (key, v) then 1 else 0)
      = l.countP p + (if p (key, val) then 1 else 0) := by
  induction l with
  | nil => simp [lookupA] at h
  | cons hd tl ih =>
      obtain ⟨k, w⟩ := hd
      by_cases hk : k = key
      · subst hk
        simp [lookupA] at h
        subst h
        simp [insertA, List.countP_cons]
        omega
      · simp [lookupA, hk] at h
        have ih2 := ih h
        simp only [insertA, if_neg hk, List.countP_cons]
        omega

theorem countP_insertA_notfound {α : Type} [DecidableEq α] {β : Type}
    (p : α × β → Bool) (l : List (α × β)) (key : α) (val : β)
    (h : lookupA l key = none) :
    (insertA l key val).countP p = l.countP p + (if p (key, val) then 1 else 0) := by
  induction l with
  | nil => simp [insertA, List.countP_cons]
  | cons hd tl ih =>
      by_cases hk : hd.1 = key
      · simp [lookupA, hk] at h
      · simp [lookupA, hk] at h
        simp [insertA, hk, List.countP_cons, ih h]
        omega

theorem countP_pos_of_lookupA {α : Type} [DecidableEq α] {β : Type}
    (p : α × β → Bool) (l : List (α × β)) (key : α) (v : β)
    (h : lookupA l key = some v) (hp : p (key, v) = true) :
    1 ≤ l.countP p := by
  induction l with
  | nil => simp [lookupA] at h
  | cons hd tl ih =>
      obtain ⟨k, w⟩ := hd
      by_cases hk : k = key
      · subst hk
        simp [lookupA] at h
        subst h
        simp [List.countP_cons, hp]
      · simp [lookupA, hk] at h
        have ih2 := ih h
        simp [List.countP_cons]
        omega

theorem countP_insertA_le {α : Type} [DecidableEq α] {β : Type}
    (p : α × β → Bool) (l : List (α × β)) (key : α) (val : β)
    (hval : p (key, val) = false) :
    (insertA l key val).countP p ≤ l.countP p := by
  cases h : lookupA l key with
  | none =>
      rw [countP_insertA_notfound p l key val h, hval]
      simp
  | some v =>
      have h2 := countP_insertA_found p l key val v h
      rw [hval] at h2
      simp at h2
      omega

/-! ## Lemmas about DriverVersion comparison -/

theorem is_newer_than_iff (a b : DriverVersion) :
    a.is_newer_than b = true ↔ specLexGt a b := by
  unfold DriverVersion.is_newer_than specLexGt
  by_cases h : a.major = b.major <;> by_cases h2 : a.minor = b.minor <;>
    by_cases h3 : a.patch = b.patch <;> simp [h, h2, h3] <;> omega

theorem cmp_eq_gt_iff (a b : DriverVersion) :
    a.cmp b = Ordering.gt ↔ specLexGt a b := by
  unfold DriverVersion.cmp specLexGt
  rcases Nat.lt_trichotomy a.major b.major with h | h | h
  · rw [Nat.compare_eq_lt.mpr h]
    simp
    omega
  · rw [Nat.compare_eq_eq.mpr h]
    rcases Nat.lt_trichotomy a.minor b.minor with h2 | h2 | h2
    · rw [Nat.compare_eq_lt.mpr h2]
      simp
      omega
    · rw [Nat.compare_eq_eq.mpr h2]
      rcases Nat.lt_trichotomy a.patch b.patch with h3 | h3 | h3
      · rw [Nat.compare_eq_lt.mpr h3]
        simp
        omega
      · rw [Nat.compare_eq_eq.mpr h3]
        rw [Nat.compare_eq_gt]
        omega
      · rw [Nat.compare_eq_gt.mpr h3]
        simp
        omega
    · rw [Nat.compare_eq_gt.mpr h2]
      simp
      omega
  · rw [Nat.compare_eq_gt.mpr h]
    simp
    omega

/-! ## Preservation of the download-queue invariant -/

theorem QInv_new (max : Nat) : QInv (DownloadQueue.new max) := by
  constructor <;> simp [DownloadQueue.new, downloadingCount]

theorem QInv_add (q : DownloadQueue) (d : DriverInfo) (u pth : String) (n : Nat)
    (h : QInv q) : QInv (q.add_task d u pth n).2 := by
  obtain ⟨h1, h2⟩ := h
  have hle : downloadingCount (q.add_task d u pth n).2 ≤ downloadingCount q := by
    simp only [DownloadQueue.add_task, downloadingCount]
    exact countP_insertA_le _ q.tasks _ _ (by simp)
  exact ⟨le_trans hle h1, h2⟩

theorem QInv_start (q : DownloadQueue) (id : TaskId) (h : QInv q) :
    QInv (orKeep q (q.start_task id)) := by
  obtain ⟨h1, h2⟩ := h
  simp only [downloadingCount] at h1
  cases hl : lookupA q.tasks id with
  | none =>
      simp [DownloadQueue.start_task, hl, orKeep]
      exact ⟨h1, h2⟩
  | some task =>
      by_cases hs : task.status = DownloadStatus.Queued
      · by_cases hc : q.active_downloads < q.max_concurrent_downloads
        · have hf := countP_insertA_found
            (fun pr => decide (pr.2.status = DownloadStatus.Downloading))
            q.tasks id { task with status := DownloadStatus.Downloading } task hl
          simp only [hs] at hf
          simp [DownloadQueue.start_task, hl, hs, hc, orKeep, QInv, downloadingCount]
          simp at hf
          omega
        · simp [DownloadQueue.start_task, hl, hs, hc, orKeep]
          exact ⟨h1, h2⟩
      · simp [DownloadQueue.start_task, hl, hs, orKeep]
        exact ⟨h1, h2⟩

theorem QInv_complete (q : DownloadQueue) (id : TaskId) (t : DownloadTask)
    (success : Bool) (h : QInv q) (hl : lookupA q.tasks id = some t)
    (hd : t.status = DownloadStatus.Downloading) :
    QInv (orKeep q (q.complete_task id success)) := by
  obtain ⟨h1, h2⟩ := h
  simp only [downloadingCount] at h1
  have hpos : 1 ≤ q.tasks.countP
      (fun pr => decide (pr.2.status = DownloadStatus.Downloading)) :=
    countP_pos_of_lookupA _ q.tasks id t hl (by simp [hd])
  have hactive : 0 < q.active_downloads := lt_of_lt_of_le hpos h1
  have hf := countP_insertA_found
      (fun pr => decide (pr.2.status = DownloadStatus.Downloading))
      q.tasks id
      { t with status := if success then DownloadStatus.Completed else DownloadStatus.Failed }
      t hl
  simp only [hd] at hf
  have hnew : ((if success then DownloadStatus.Completed else DownloadStatus.Failed)
      = DownloadStatus.Downloading) = False := by
    cases success <;> simp
  simp [DownloadQueue.complete_task, hl, orKeep, QInv, downloadingCount, hactive]
  simp [hnew] at hf
  constructor <;> omega

theorem QInv_cancel (q : DownloadQueue) (id : TaskId) (h : QInv q) :
    QInv (orKeep q (q.cancel_task id)) := by
  obtain ⟨h1, h2⟩ := h
  simp only [downloadingCount] at h1
  cases hl : lookupA q.tasks id with
  | none =>
      simp [DownloadQueue.cancel_task, hl, orKeep]
      exact ⟨h1, h2⟩
  | some task =>
      have hle := countP_insertA_le
        (fun pr => decide (pr.2.status = DownloadStatus.Downloading))
        q.tasks id { task with status := DownloadStatus.Cancelled } (by simp)
      simp [DownloadQueue.cancel_task, hl, orKeep, QInv, downloadingCount]
      omega

theorem QInv_progress (q : DownloadQueue) (id : TaskId) (v : Rat) (h : QInv q) :
    QInv (orKeep q (q.update_progress id v)) := by
  obtain ⟨h1, h2⟩ := h
  simp only [downloadingCount] at h1
  cases hl : lookupA q.tasks id with
  | none =>
      simp [DownloadQueue.update_progress, hl, orKeep]
      exact ⟨h1, h2⟩
  | some task =>
      have hf := countP_insertA_found
        (fun pr => decide (pr.2.status = DownloadStatus.Downloading))
        q.tasks id { task with progress := v } task hl
      simp at hf
      simp [DownloadQueue.update_progress, hl, orKeep, QInv, downloadingCount]
      omega

theorem qinv_of_reachable (q : DownloadQueue) (h : ReachableQ q) : QInv q := by
  induction h with
  | init max => exact QInv_new max
  | add d u p n _ ih => exact QInv_add _ d u p n ih
  | start id _ ih => exact QInv_start _ id ih
  | complete success _ hl hd ih => exact QInv_complete _ _ _ success ih hl hd
  | cancel id _ ih => exact QInv_cancel _ id ih
  | progress id v _ ih => exact QInv_progress _ id v ih

/-! ## Lemmas about the batch pipeline -/

theorem update_loop_counts (l : List BatchEntry) :
    (update_loop l).1 + (update_loop l).2.1 = l.length := by
  induction l with
  | nil => simp [update_loop]
  | cons e rest ih =>
      simp only [update_loop]
      cases hre : runEntry e with
      | error err => simp [hre]; omega
      | ok ir => by_cases hs : ir.success <;> simp [hre, hs] <;> omega

theorem batch_ok_of_no_err (drivers : List BatchEntry)
    (h : ∀ e ∈ drivers, runEntryIsErr e = false) :
    ∃ rs, batch_update_drivers drivers = Except.ok rs ∧ rs.length = drivers.length := by
  induction drivers with
  | nil => exact ⟨[], rfl, rfl⟩
  | cons e rest ih =>
      have he : runEntryIsErr e = false := h e (List.mem_cons_self e rest)
      obtain ⟨rs, hrs, hlen⟩ := ih (fun x hx => h x (List.mem_cons_of_mem e hx))
      cases hre : runEntry e with
      | error err => simp [runEntryIsErr, hre] at he
      | ok r =>
          refine ⟨r :: rs, ?_, by simp [hlen]⟩
          simp [batch_update_drivers, hre, hrs]

/-! ## The claims -/

/-- C1 (counterexample): on the `download_and_install_driver` path of
`src/update.rs` the OS-level installer is invoked although no restore point
was ever created, and the function offers no flag to disable rollback
protection — refuting "for every install attempt, a restore point is
created before any OS-level installer invocation runs". -/
theorem C1_counterexample :
    PEv.installerInvoked ∈
        (download_and_install_driver sampleScanDriver httpOkEnv installOkEnv).2 ∧
    PEv.restorePointCreated ∉
        (download_and_install_driver sampleScanDriver httpOkEnv installOkEnv).2 ∧
    installGuarded
        (download_and_install_driver sampleScanDriver httpOkEnv installOkEnv).2 = false := by
  refine ⟨?_, ?_, ?_⟩ <;> decide

/-- C1 (amended): on the controller path
`DriverUpdaterCore::install_driver_update` a restore point is created before
the download and install steps, and a restore-point failure aborts the
attempt with an error before any install step runs; there is no flag to
disable rollback protection.  The `download_and_install_driver` path of
`src/update.rs`, however, installs without any restore point. -/
theorem C1_restore_point_guards_controller_path :
    (∀ (env : ControllerEnv) (d : DriverInfo),
        installGuarded (install_driver_update env d).2 = true) ∧
    (∀ (dl : Bool) (d : DriverInfo),
        (install_driver_update { restore_point_ok := false, download_dir_ok := dl } d).1
            = Except.error (HamsterError.Unknown "创建还原点失败") ∧
        (install_driver_update { restore_point_ok := false, download_dir_ok := dl } d).2
            = [PEv.restorePointFailed]) := by
  constructor
  · intro env d
    obtain ⟨rp, dl⟩ := env
    cases rp <;> cases dl <;> rfl
  · intro dl d
    exact ⟨rfl, rfl⟩

/-- C2: the download-completion path never computes a hash: whatever SHA-256
digest the received bytes `"hello"` have and whatever expected checksum one
picks (the `ScanDriverInfo` consumed by this path carries no checksum field
at all), the completed download is reported `success: true` and handed
straight to the installer, which runs. -/
theorem C2_no_checksum_verification (sha256hex : List Nat → String) (expected : String)
    (_hne : sha256hex [104, 101, 108, 108, 111] ≠ expected) :
    (download_driver_with_progress "https://example.com/driver.exe"
        "NVIDIA Graphics Driver" "531.18" httpOkEnv).1
      = Except.ok
          { driver_name := "NVIDIA Graphics Driver"
            file_path := "NVIDIA_Graphics_Driver_531_18.exe"
            file_size := 5
            success := true
            error_message := none } ∧
    (download_and_install_driver sampleScanDriver httpOkEnv installOkEnv).1
      = Except.ok
          { driver_name := "NVIDIA Graphics Driver"
            success := true
            error_message := none
            installed_version := some "已安装" } ∧
    PEv.installerInvoked ∈
        (download_and_install_driver sampleScanDriver httpOkEnv installOkEnv).2 := by
  refine ⟨?_, ?_, ?_⟩ <;> decide

/-- C2 (witness): instantiating the digest function and expected checksum
with concretely different values. -/
theorem C2_no_checksum_verification_witness :
    (download_driver_with_progress "https://example.com/driver.exe"
        "NVIDIA Graphics Driver" "531.18" httpOkEnv).1
      = Except.ok
          { driver_name := "NVIDIA Graphics Driver"
            file_path := "NVIDIA_Graphics_Driver_531_18.exe"
            file_size := 5
            success := true
            error_message := none } ∧
    (download_and_install_driver sampleScanDriver httpOkEnv installOkEnv).1
      = Except.ok
          { driver_name := "NVIDIA Graphics Driver"
            success := true
            error_message := none
            installed_version := some "已安装" } ∧
    PEv.installerInvoked ∈
        (download_and_install_driver sampleScanDriver httpOkEnv installOkEnv).2 :=
  C2_no_checksum_verification (fun _ => "2cf24dba5fb0a30e") "0000000000000000"
    (by decide)

/-- C3: an install whose installer exits non-success (both silent-install
attempts fail) is reported `success: false` but no rollback of any kind
runs — the trace holds only the two installer invocations — and
`RollbackManager::perform_rollback` itself reinstalls nothing (empty action
trace), refuting "a rollback reinstalls the previously-backed-up driver
files" and "the attempt is marked RolledBack" (no such status exists). -/
theorem C3_no_rollback_on_install_failure :
    (DriverInstaller.install_driver c3info c3env).1
        = Except.ok
            { success := false
              message := "驱动程序安装失败: EXE驱动安装失败"
              driver_version := "531.18"
              installed_at := "2023-03-01T00:00:00Z" } ∧
    (DriverInstaller.install_driver c3info c3env).2
        = [PEv.installerInvoked, PEv.installerInvoked] ∧
    PEv.rollbackReinstall ∉ (DriverInstaller.install_driver c3info c3env).2 ∧
    perform_rollback c3rollback = (Except.ok (), []) := by
  refine ⟨?_, ?_, ?_, ?_⟩ <;> decide

/-- C4 (counterexample): with `max_concurrent_downloads = 1`, calling
`complete_task` on a still-Queued task decrements the shared active counter,
after which `start_task` admits a second download: two tasks are
`Downloading` at once, refuting the bound for arbitrary operation
sequences. -/
theorem C4_counterexample :
    downloadingCount ((DownloadQueue.new 1).run c4ops) = 2 ∧
    ((DownloadQueue.new 1).run c4ops).max_concurrent_downloads = 1 := by
  exact ⟨by decide, by decide⟩

/-- C4 (amended): in every state reachable by add/start/cancel/progress
operations and by `complete_task` calls restricted to tasks actually in
`Downloading` state, the number of `Downloading` tasks never exceeds
`max_concurrent_downloads`. -/
theorem C4_downloading_never_exceeds_cap (q : DownloadQueue) (h : ReachableQ q) :
    downloadingCount q ≤ q.max_concurrent_downloads :=
  le_trans (qinv_of_reachable q h).1 (qinv_of_reachable q h).2

/-- C4 (witness): the bound evaluated on a concrete reachable state: a fresh
queue with cap 2, one task added and started. -/
theorem C4_downloading_never_exceeds_cap_witness :
    downloadingCount
        (orKeep ((DownloadQueue.new 2).add_task (DriverInfo.new "a" "h") "u" "p" 0).2
          ((((DownloadQueue.new 2).add_task (DriverInfo.new "a" "h") "u" "p" 0).2).start_task
            { name := "a", version_string := "0.0.0.0", hardware_id := "h" }))
      ≤ (orKeep ((DownloadQueue.new 2).add_task (DriverInfo.new "a" "h") "u" "p" 0).2
          ((((DownloadQueue.new 2).add_task (DriverInfo.new "a" "h") "u" "p" 0).2).start_task
            { name := "a", version_string := "0.0.0.0", hardware_id := "h" })).max_concurrent_downloads :=
  C4_downloading_never_exceeds_cap _
    (ReachableQ.start _ (ReachableQ.add _ _ _ _ (ReachableQ.init 2)))

/-- C5 (counterexample): re-enqueuing the identical candidate while its task
is `Downloading` yields the same task id but is not a no-op: the existing
task is replaced and its status falls back to `Queued`. -/
theorem C5_counterexample :
    (lookupA c5q2.tasks c5id).map DownloadTask.status
        = some DownloadStatus.Downloading ∧
    (c5q2.add_task c5driver "u2" "p2" 5).1 = c5id ∧
    (lookupA c5q3.tasks c5id).map DownloadTask.status
        = some DownloadStatus.Queued ∧
    (lookupA c5q3.tasks c5id).map DownloadTask.progress = some 0 ∧
    c5q3.tasks.length = c5q2.tasks.length := by
  refine ⟨?_, ?_, ?_, ?_, ?_⟩ <;> decide

/-- C5 (amended): enqueuing the same candidate twice yields the same
deterministic task id and creates no second entry (the task count is
unchanged), but the second `add_task` replaces the existing task with a
fresh one: status `Queued`, progress 0, and the new url/path/timestamp. -/
theorem C5_reenqueue_same_id_replaces (q : DownloadQueue) (d : DriverInfo)
    (u1 p1 u2 p2 : String) (n1 n2 : Nat) :
    ((q.add_task d u1 p1 n1).2.add_task d u2 p2 n2).1 = (q.add_task d u1 p1 n1).1 ∧
    ((q.add_task d u1 p1 n1).2.add_task d u2 p2 n2).2.tasks.length
        = (q.add_task d u1 p1 n1).2.tasks.length ∧
    lookupA ((q.add_task d u1 p1 n1).2.add_task d u2 p2 n2).2.tasks (generate_task_id d)
        = some { id := generate_task_id d, driver_info := d, download_url := u2
                 file_path := p2, status := DownloadStatus.Queued, progress := 0
                 created_at := n2 } := by
  refine ⟨rfl, ?_, ?_⟩
  · simp only [DownloadQueue.add_task]
    exact length_insertA_found _ _ _ _ (lookupA_insertA_self q.tasks _ _)
  · simp only [DownloadQueue.add_task]
    exact lookupA_insertA_self _ _ _

/-- C6 (counterexample): the parsed identifiers of `"pci"` and `"PCI"` have
distinct `full_id` strings and no matching components, so the claim
predicts a partial-match sum of 0, but the source's case-insensitive
comparison returns the maximum score 1000. -/
theorem C6_counterexample :
    (HardwareId.parse "pci").full_id ≠ (HardwareId.parse "PCI").full_id ∧
    fieldMatch (HardwareId.parse "pci").vendor_id (HardwareId.parse "PCI").vendor_id
        = false ∧
    fieldMatch (HardwareId.parse "pci").device_id (HardwareId.parse "PCI").device_id
        = false ∧
    fieldMatch (HardwareId.parse "pci").subsys_id (HardwareId.parse "PCI").subsys_id
        = false ∧
    fieldMatch (HardwareId.parse "pci").revision (HardwareId.parse "PCI").revision
        = false ∧
    calculate_match_score (HardwareId.parse "pci") (HardwareId.parse "PCI") = 1000 := by
  refine ⟨?_, ?_, ?_, ?_, ?_, ?_⟩ <;> decide

/-- C6 (amended): with "identical" weakened to "equal ignoring ASCII case"
(and component matches likewise case-insensitive on both-present fields),
the claimed decomposition holds: equal-ignoring-case `full_id` gives 1000,
otherwise the score is the independent sum of 100/200/50/10 weights, so a
vendor-only match scores 100, a device-only match 200, and vendor+device
300. -/
theorem C6_match_score_decomposition (a b : HardwareId) :
    (eqIgnoreAsciiCase a.full_id b.full_id = true → calculate_match_score a b = 1000) ∧
    (eqIgnoreAsciiCase a.full_id b.full_id = false →
      calculate_match_score a b =
        (if fieldMatch a.vendor_id b.vendor_id then 100 else 0)
        + (if fieldMatch a.device_id b.device_id then 200 else 0)
        + (if fieldMatch a.subsys_id b.subsys_id then 50 else 0)
        + (if fieldMatch a.revision b.revision then 10 else 0)) ∧
    (eqIgnoreAsciiCase a.full_id b.full_id = false →
      fieldMatch a.vendor_id b.vendor_id = true →
      fieldMatch a.device_id b.device_id = false →
      fieldMatch a.subsys_id b.subsys_id = false →
      fieldMatch a.revision b.revision = false →
      calculate_match_score a b = 100) ∧
    (eqIgnoreAsciiCase a.full_id b.full_id = false →
      fieldMatch a.vendor_id b.vendor_id = false →
      fieldMatch a.device_id b.device_id = true →
      fieldMatch a.subsys_id b.subsys_id = false →
      fieldMatch a.revision b.revision = false →
      calculate_match_score a b = 200) ∧
    (eqIgnoreAsciiCase a.full_id b.full_id = false →
      fieldMatch a.vendor_id b.vendor_id = true →
      fieldMatch a.device_id b.device_id = true →
      fieldMatch a.subsys_id b.subsys_id = false →
      fieldMatch a.revision b.revision = false →
      calculate_match_score a b = 300) := by
  unfold calculate_match_score
  refine ⟨fun h => by simp [h], fun h => by simp [h],
         fun h h1 h2 h3 h4 => by simp [h, h1, h2, h3, h4],
         fun h h1 h2 h3 h4 => by simp [h, h1, h2, h3, h4],
         fun h h1 h2 h3 h4 => by simp [h, h1, h2, h3, h4]⟩

/-- C6 (witness): a pair whose full ids differ (even ignoring case) and
where only the vendor matches scores exactly 100. -/
theorem C6_match_score_decomposition_witness :
    calculate_match_score (HardwareId.parse "PCI\\VEN_10DE&DEV_0000")
        (HardwareId.parse "pci\\ven_10de&dev_1111") = 100 :=
  (C6_match_score_decomposition _ _).2.2.1
    (by decide) (by decide) (by decide) (by decide) (by decide)

/-- C7 (counterexample): with the sample device and a cache whose first
candidate scores 0 against the device (below the constructed threshold 100)
while the second scores the maximum 1000, `match_driver` still returns the
first candidate — it neither picks the highest score nor reports
"no match" for a below-threshold candidate. -/
theorem C7_counterexample :
    calculate_match_score (HardwareId.parse "PCI\\VEN_10DE&DEV_1C82")
        (HardwareId.parse "USB\\VID_0000&PID_0000") = 0 ∧
    calculate_match_score (HardwareId.parse "PCI\\VEN_10DE&DEV_1C82")
        (HardwareId.parse "PCI\\VEN_10DE&DEV_1C82") = 1000 ∧
    c7matcher.match_threshold = 100 ∧
    c7matcher.match_driver c7device
        = Except.ok (some (c7matcher.package_to_driver_info c7pkgLow)) := by
  refine ⟨?_, ?_, ?_, ?_⟩ <;> decide

/-- C7 (amended): `match_driver` ignores scoring entirely: its result is
invariant under the configured threshold, and whenever the local cache holds
a candidate list under the device's `VEN_x&DEV_y` short id it returns the
first cached package (converted), regardless of score, version or release
date. -/
theorem C7_matcher_ignores_scores (cache : List (String × List DriverPackage))
    (t1 t2 : Nat) (dev : DeviceInfo) :
    DriverMatcher.match_driver { local_cache := cache, match_threshold := t1 } dev
      = DriverMatcher.match_driver { local_cache := cache, match_threshold := t2 } dev ∧
    (∀ (hid : HardwareId) (sid : String) (pkgs : List DriverPackage),
      dev.primary_hardware_id = some hid →
      hid.short_id = some sid →
      lookupA cache sid = some pkgs →
      DriverMatcher.match_driver { local_cache := cache, match_threshold := t1 } dev
        = Except.ok (pkgs.head?.map
            (DriverMatcher.package_to_driver_info
              { local_cache := cache, match_threshold := t1 }))) := by
  constructor
  · rfl
  · intro hid sid pkgs h1 h2 h3
    cases hh : pkgs.head? <;>
      simp [DriverMatcher.match_driver, DriverMatcher.find_in_local_cache, h1, h2, h3, hh]

/-- C7 (witness): the characterization evaluated on the sample device and
cache. -/
theorem C7_matcher_ignores_scores_witness :
    DriverMatcher.match_driver { local_cache := c7cache, match_threshold := 100 } c7device
      = Except.ok ([c7pkgLow, c7pkgHigh].head?.map
          (DriverMatcher.package_to_driver_info
            { local_cache := c7cache, match_threshold := 100 })) :=
  (C7_matcher_ignores_scores c7cache 100 0 c7device).2
    (HardwareId.parse "PCI\\VEN_10DE&DEV_1C82") "VEN_10DE&DEV_1C82"
    [c7pkgLow, c7pkgHigh] (by decide) (by decide) (by decide)

/-- C8 (counterexample): in `batch_update_drivers` a transport-level `Err`
for the first driver aborts the whole batch, so the second driver — whose
run would succeed — gets no individual outcome. -/
theorem C8_counterexample :
    batch_update_drivers [c8bad, c8good]
        = Except.error (HamsterError.NetworkError "下载失败: connection reset") ∧
    runEntry c8good
        = Except.ok
            { driver_name := "Realtek Audio Driver"
              success := true
              error_message := none
              installed_version := some "已安装" } := by
  exact ⟨by decide, by decide⟩

/-- C8 (amended): `update_all_drivers` (src/batch_update.rs) reports every
driver: success and failure counts always sum to the batch size; and
`batch_update_drivers` (src/update.rs) isolates failures reported inside
`Ok` results — it returns one outcome per driver whenever no run ends in a
transport-level `Err`, but such an `Err` aborts the remaining drivers. -/
theorem C8_every_driver_reported (drivers : List BatchEntry) :
    ((update_all_drivers drivers).success + (update_all_drivers drivers).failed
        = (update_all_drivers drivers).total ∧
      (update_all_drivers drivers).total = drivers.length) ∧
    ((∀ e ∈ drivers, runEntryIsErr e = false) →
      ∃ rs, batch_update_drivers drivers = Except.ok rs ∧ rs.length = drivers.length) := by
  constructor
  · cases drivers with
    | nil => constructor <;> rfl
    | cons e rest =>
        constructor
        · simp [update_all_drivers]
          exact update_loop_counts (e :: rest)
        · simp [update_all_drivers]
  · exact batch_ok_of_no_err drivers

/-- C8 (witness): the coverage evaluated at a one-driver batch with no
transport error. -/
theorem C8_every_driver_reported_witness :
    ∃ rs, batch_update_drivers [c8good] = Except.ok rs ∧ rs.length = [c8good].length :=
  (C8_every_driver_reported [c8good]).2 (by decide)

/-- C9: the `u32` subtraction in `calculate_version_score` underflows even
under the `is_newer_than` precondition: available 2.0.0.0 against current
1.9.9.0 is newer, yet the per-component minor subtraction 0 − 9 underflows,
reaching the arithmetic-error branch. -/
theorem C9_version_score_underflow_reachable :
    ∃ current available : DriverVersion,
      available.is_newer_than current = true ∧
      u32sub available.minor current.minor = none ∧
      calculate_version_score current available = none := by
  refine ⟨{ version_string := "1.9.9", major := 1, minor := 9, patch := 9, build := 0 },
          { version_string := "2.0.0", major := 2, minor := 0, patch := 0, build := 0 },
          ?_, ?_, ?_⟩ <;> decide

/-- C10: `is_newer_than` and the `Ord` implementation agree on every pair:
`a.is_newer_than b` holds iff `cmp a b = gt`, both realize the strict
lexicographic order on the `(major, minor, patch, build)` 4-tuple, and both
ignore `version_string`. -/
theorem C10_is_newer_than_matches_cmp (a b : DriverVersion) :
    (a.is_newer_than b = true ↔ a.cmp b = Ordering.gt) ∧
    (a.is_newer_than b = true ↔ specLexGt a b) ∧
    (a.cmp b = Ordering.gt ↔ specLexGt a b) ∧
    (∀ s1 s2 : String,
      DriverVersion.cmp { a with version_string := s1 } { b with version_string := s2 }
          = a.cmp b ∧
      DriverVersion.is_newer_than { a with version_string := s1 }
          { b with version_string := s2 }
          = a.is_newer_than b) :=
  ⟨(is_newer_than_iff a b).trans (cmp_eq_gt_iff a b).symm,
   is_newer_than_iff a b,
   cmp_eq_gt_iff a b,
   fun _ _ => ⟨rfl, rfl⟩⟩

end HamsterDrive
